import Mathlib

/-!
Verification development for the AgriGuard backend
(`src/backend/app/services/…`).  The Python services are shallowly
embedded: strings are `List Char`, Python floats are modelled as `ℚ`
(all numeric literals in the sources are decimal and all comparisons
in the claims stay far from representation error; the single rounding
tie that occurs, `round((5/3)*33.3)`, agrees between IEEE doubles and
exact rationals under round-half-to-even), JSON values are an explicit
inductive type, and the outcome of an outbound HTTP call is an explicit
sum so that the exception-handling structure of every `try/except`
block is visible.  Fallible code returns `Option`.
-/

/-! ## JSON values (Python `dict`/`list`/`str`/numbers after `json.loads`) -/

/-- Characters written via code points so that brace/quote/backslash
literals never appear in the file. -/
def obrace : Char := Char.ofNat 123

def cbrace : Char := Char.ofNat 125

def quoteChar : Char := Char.ofNat 34

def backslashChar : Char := Char.ofNat 92

/-- JSON value, the result type of Python's `json.loads`.
Objects keep their key/value pairs in textual order (CPython dicts are
insertion ordered; duplicate keys cannot occur in any input considered
by the claims). -/
inductive Json where
  | null : Json
  | bool (b : Bool) : Json
  | num (q : ℚ) : Json
  | str (s : List Char) : Json
  | arr (elems : List Json) : Json
  | obj (kvs : List (List Char × Json)) : Json

/-! ## A strict JSON parser, embedding `json.loads`

Recursive descent over `List Char` with explicit fuel (the fuel
`length + 1` is always sufficient because every nesting level consumes
at least one character). -/

def isJsonWs (c : Char) : Bool :=
  c = ' ' || c = Char.ofNat 9 || c = Char.ofNat 10 || c = Char.ofNat 13

def skipWs (s : List Char) : List Char := s.dropWhile isJsonWs

def hexVal (c : Char) : Option Nat :=
  if '0' ≤ c ∧ c ≤ '9' then some (c.toNat - 48)
  else if 'a' ≤ c ∧ c ≤ 'f' then some (c.toNat - 87)
  else if 'A' ≤ c ∧ c ≤ 'F' then some (c.toNat - 55)
  else none

/-- Body of a JSON string literal, after the opening quote; returns the
decoded characters and the remaining input after the closing quote. -/
def parseStringBody : List Char → Option (List Char × List Char)
  | [] => none
  | c :: r =>
    if c = quoteChar then some ([], r)
    else if c = backslashChar then
      match r with
      | [] => none
      | e :: r2 =>
        if e = quoteChar then (parseStringBody r2).map (fun p => (quoteChar :: p.1, p.2))
        else if e = backslashChar then (parseStringBody r2).map (fun p => (backslashChar :: p.1, p.2))
        else if e = '/' then (parseStringBody r2).map (fun p => ('/' :: p.1, p.2))
        else if e = 'b' then (parseStringBody r2).map (fun p => (Char.ofNat 8 :: p.1, p.2))
        else if e = 'f' then (parseStringBody r2).map (fun p => (Char.ofNat 12 :: p.1, p.2))
        else if e = 'n' then (parseStringBody r2).map (fun p => (Char.ofNat 10 :: p.1, p.2))
        else if e = 'r' then (parseStringBody r2).map (fun p => (Char.ofNat 13 :: p.1, p.2))
        else if e = 't' then (parseStringBody r2).map (fun p => (Char.ofNat 9 :: p.1, p.2))
        else if e = 'u' then
          match r2 with
          | h1 :: h2 :: h3 :: h4 :: r3 =>
            match hexVal h1, hexVal h2, hexVal h3, hexVal h4 with
            | some a, some b, some c3, some d =>
              (parseStringBody r3).map (fun p => (Char.ofNat (((a * 16 + b) * 16 + c3) * 16 + d) :: p.1, p.2))
            | _, _, _, _ => none
          | _ => none
        else none
    else if c.toNat < 32 then none
    else (parseStringBody r).map (fun p => (c :: p.1, p.2))

def digitsToNat (ds : List Char) : Nat :=
  ds.foldl (fun a c => 10 * a + (c.toNat - 48)) 0

/-- Exponent suffix of a JSON number (the part after `e`/`E`). -/
def parseExpTail (q : ℚ) (s : List Char) : Option (ℚ × List Char) :=
  let (eneg, s1) :=
    match s with
    | '+' :: r => (false, r)
    | '-' :: r => (true, r)
    | _ => (false, s)
  let ds := s1.takeWhile Char.isDigit
  let s2 := s1.dropWhile Char.isDigit
  if ds = [] then none
  else
    let e := digitsToNat ds
    some ((if eneg then q / 10 ^ e else q * 10 ^ e), s2)

def parseNumOpt (q : ℚ) (s : List Char) : Option (ℚ × List Char) :=
  match s with
  | 'e' :: r => parseExpTail q r
  | 'E' :: r => parseExpTail q r
  | _ => some (q, s)

/-- JSON number literal (grammar `-?(0|[1-9]\d*)(\.\d+)?([eE][+-]?\d+)?`),
valued in `ℚ`. -/
def parseNum (s : List Char) : Option (ℚ × List Char) :=
  let (neg, s1) :=
    match s with
    | '-' :: r => (true, r)
    | _ => (false, s)
  let ds := s1.takeWhile Char.isDigit
  let s2 := s1.dropWhile Char.isDigit
  if ds = [] then none
  else if 1 < ds.length ∧ ds.head? = some '0' then none
  else
    let ip : ℚ := (digitsToNat ds : ℚ)
    match s2 with
    | '.' :: r =>
      let fs := r.takeWhile Char.isDigit
      let s3 := r.dropWhile Char.isDigit
      if fs = [] then none
      else
        let q := ip + (digitsToNat fs : ℚ) / (10 ^ fs.length : ℚ)
        parseNumOpt (if neg then -q else q) s3
    | _ => parseNumOpt (if neg then -ip else ip) s2

mutual

/-- One JSON value, allowing leading whitespace; returns the value and
the unconsumed remainder. -/
def parseValue : Nat → List Char → Option (Json × List Char)
  | 0, _ => none
  | f + 1, s =>
    match skipWs s with
    | [] => none
    | c :: r =>
      if c = obrace then
        match skipWs r with
        | [] => none
        | c2 :: r2 =>
          if c2 = cbrace then some (Json.obj [], r2)
          else (parseMembers f (c2 :: r2)).map (fun p => (Json.obj p.1, p.2))
      else if c = '[' then
        match skipWs r with
        | [] => none
        | c2 :: r2 =>
          if c2 = ']' then some (Json.arr [], r2)
          else (parseElems f (c2 :: r2)).map (fun p => (Json.arr p.1, p.2))
      else if c = quoteChar then
        (parseStringBody r).map (fun p => (Json.str p.1, p.2))
      else if c = 't' then
        match r with
        | 'r' :: 'u' :: 'e' :: r2 => some (Json.bool true, r2)
        | _ => none
      else if c = 'f' then
        match r with
        | 'a' :: 'l' :: 's' :: 'e' :: r2 => some (Json.bool false, r2)
        | _ => none
      else if c = 'n' then
        match r with
        | 'u' :: 'l' :: 'l' :: r2 => some (Json.null, r2)
        | _ => none
      else (parseNum (c :: r)).map (fun p => (Json.num p.1, p.2))

/-- Nonempty member list of a JSON object, up to and including the
closing brace. -/
def parseMembers : Nat → List Char → Option (List (List Char × Json) × List Char)
  | 0, _ => none
  | f + 1, s =>
    match skipWs s with
    | [] => none
    | c :: r =>
      if c = quoteChar then
        match parseStringBody r with
        | none => none
        | some (key, r2) =>
          match skipWs r2 with
          | ':' :: r3 =>
            match parseValue f r3 with
            | none => none
            | some (v, r4) =>
              match skipWs r4 with
              | [] => none
              | c5 :: r5 =>
                if c5 = ',' then
                  match parseMembers f r5 with
                  | none => none
                  | some (kvs, r6) => some ((key, v) :: kvs, r6)
                else if c5 = cbrace then some ([(key, v)], r5)
                else none
          | _ => none
      else none

/-- Nonempty element list of a JSON array, up to and including the
closing bracket. -/
def parseElems : Nat → List Char → Option (List Json × List Char)
  | 0, _ => none
  | f + 1, s =>
    match parseValue f s with
    | none => none
    | some (v, r) =>
      match skipWs r with
      | [] => none
      | c :: r2 =>
        if c = ',' then (parseElems f r2).map (fun p => (v :: p.1, p.2))
        else if c = ']' then some ([v], r2)
        else none

end

/-- Strict parse of a whole text as one JSON document: Python's
`json.loads` (modulo its non-standard `NaN`/`Infinity` literals, which
no claim touches). -/
def parseJson (s : List Char) : Option Json :=
  match parseValue (s.length + 1) s with
  | some (v, rest) => if skipWs rest = [] then some v else none
  | none => none

/-! ## Brace-span extraction, embedding `re.search(r'\{[\s\S]*\}', response)`

The regex match, being greedy, runs from the first open brace to the
last close brace at or after it; `jsonSpan` returns exactly that span. -/

def jsonSpan (s : List Char) : Option (List Char) :=
  if s.dropWhile (fun c => !(c == obrace)) = [] then none
  else if (((s.dropWhile (fun c => !(c == obrace))).reverse.dropWhile
      (fun c => !(c == cbrace))).reverse) = [] then none
  else some (((s.dropWhile (fun c => !(c == obrace))).reverse.dropWhile
      (fun c => !(c == cbrace))).reverse)

/-! ## Object helpers (Python `dict` operations used by the services) -/

/-- Python `d[k] = v` on an association list: replace the first
occurrence of the key, else append (CPython insertion order). -/
def kvsSet : List (List Char × Json) → List Char → Json → List (List Char × Json)
  | [], k, v => [(k, v)]
  | (k', v') :: t, k, v =>
    if k' = k then (k, v) :: t else (k', v') :: kvsSet t k v

/-- Python `d.get(k)` on an association list. -/
def kvsGet : List (List Char × Json) → List Char → Option Json
  | [], _ => none
  | (k', v') :: t, k => if k' = k then some v' else kvsGet t k

/-- Setting a key on a JSON value; the services only ever do this on
objects (a non-object is returned unchanged). -/
def objSet (j : Json) (k : List Char) (v : Json) : Json :=
  match j with
  | .obj kvs => .obj (kvsSet kvs k v)
  | other => other

def objGet (j : Json) (k : List Char) : Option Json :=
  match j with
  | .obj kvs => kvsGet kvs k
  | _ => none

def hasKey (j : Json) (k : List Char) : Bool :=
  (objGet j k).isSome

/-- Top-level keys of a JSON object, in order. -/
def topKeys (j : Json) : List (List Char) :=
  match j with
  | .obj kvs => kvs.map Prod.fst
  | _ => []

/-! ## Response normalizers
(`DiseaseDetectionService._parse_disease_response`,
`DiseaseDetectionService._parse_health_map_response`,
`IPMStrategyService._parse_strategy_response`) -/

/-- Fallback record of `_parse_disease_response`, fields and order as
in the source (`disease_detected=True`, `confidence=0.7`, the raw
response as description, `parse_error=True`). -/
def diseaseFallback (response : List Char) : Json :=
  Json.obj
    [ ( "disease_detected".toList, Json.bool true),
      ( "disease_name".toList, Json.str ( "Analysis Complete".toList)),
      ( "confidence".toList, Json.num (7 / 10)),
      ( "description".toList, Json.str response),
      ( "urgency_level".toList, Json.str ( "medium".toList)),
      ( "treatment_organic".toList, Json.obj []),
      ( "treatment_chemical".toList, Json.obj []),
      ( "parse_error".toList, Json.bool true) ]

/-- Fallback record of `_parse_strategy_response`. -/
def strategyFallback (response : List Char) : Json :=
  Json.obj
    [ ( "strategy_name".toList, Json.str ( "Generated Strategy".toList)),
      ( "raw_strategy".toList, Json.str response),
      ( "immediate_actions".toList,
        Json.arr
          [ Json.obj
              [ ( "action".toList, Json.str ( "See detailed analysis".toList)),
                ( "priority".toList, Json.str ( "high".toList)) ] ]),
      ( "parse_error".toList, Json.bool true) ]

/-- Fallback record of `_parse_health_map_response`. -/
def healthMapFallback (response : List Char) : Json :=
  Json.obj
    [ ( "overall_health_score".toList, Json.num 70),
      ( "zones".toList, Json.arr []),
      ( "recommendations".toList, Json.arr [Json.str response]),
      ( "parse_error".toList, Json.bool true) ]

/-- `DiseaseDetectionService._parse_disease_response`: search the raw
text for the greedy first-brace…last-brace span, `json.loads` it, and
return the parsed value as-is; on a missing span or a
`JSONDecodeError`, return the fixed fallback record. -/
def parse_disease_response (response : List Char) : Json :=
  match jsonSpan response with
  | some t =>
    match parseJson t with
    | some v => v
    | none => diseaseFallback response
  | none => diseaseFallback response

/-- `IPMStrategyService._parse_strategy_response`: same extract-or-
fallback logic with the strategy fallback record. -/
def parse_strategy_response (response : List Char) : Json :=
  match jsonSpan response with
  | some t =>
    match parseJson t with
    | some v => v
    | none => strategyFallback response
  | none => strategyFallback response

/-- `DiseaseDetectionService._parse_health_map_response`: same logic
with the health-map fallback record. -/
def parse_health_map_response (response : List Char) : Json :=
  match jsonSpan response with
  | some t =>
    match parseJson t with
    | some v => v
    | none => healthMapFallback response
  | none => healthMapFallback response

/-- `DiseaseDetectionService.analyze_leaf`, parameterised by the raw
text the vision provider returned: normalize it, then set
`result["raw_analysis"] = response`. -/
def analyze_leaf (response : List Char) : Json :=
  objSet (parse_disease_response response) ( "raw_analysis".toList) (Json.str response)

/-- Field names of the disease-diagnosis result schema
(the JSON format requested by `DISEASE_DETECTION_PROMPT` /
the spec's `DiagnosisResult`). -/
def diseaseSchemaKeys : List (List Char) :=
  [ "disease_detected".toList, "disease_name".toList, "confidence".toList,
    "urgency_level".toList, "description".toList,
    "treatment_organic".toList, "treatment_chemical".toList ]

/-- Necessary condition for "fully matches the target result schema":
every schema field is present. -/
def coversDiseaseSchema (j : Json) : Bool :=
  diseaseSchemaKeys.all (fun k => hasKey j k)

/-! ## Weather service heuristics (`weather_service.py`) -/

/-- Qualitative risk level, the values `"low"`/`"medium"`/`"high"`. -/
inductive Level where
  | low : Level
  | medium : Level
  | high : Level
  deriving DecidableEq

/-- Spray-condition quality, the values `"good"`/`"moderate"`/`"poor"`. -/
inductive SprayCond where
  | good : SprayCond
  | moderate : SprayCond
  | poor : SprayCond
  deriving DecidableEq

/-- Current-weather record consumed by `analyze_disease_risk`
(the fields it reads, with the `.get` defaults never needed because
`get_current_weather` always populates them). -/
structure WeatherSnapshot where
  temperature : ℚ
  humidity : ℚ
  precipitation : ℚ
  wind_speed : ℚ
  deriving DecidableEq

/-- Result record of `analyze_disease_risk`. -/
structure RiskAssessment where
  fungal_disease_risk : Level
  bacterial_disease_risk : Level
  pest_activity_risk : Level
  spray_conditions : SprayCond
  alerts : List (List Char)
  recommendations : List (List Char)
  overall_risk_score : ℤ
  overall_risk_level : Level
  deriving DecidableEq

/-- Numeric value of a level in the overall-score computation
(`risk_scores = {"low": 1, "medium": 2, "high": 3}`). -/
def riskScoreOf : Level → ℚ
  | .low => 1
  | .medium => 2
  | .high => 3

/-- Python's built-in `round` to an integer: round half to even.  On
every value `analyze_disease_risk` feeds it (`s/3 * 33.3` for
`s = 3..9`), the IEEE-double computation agrees with this exact
rational rounding, tie at `55.5` included. -/
def ratFloor (q : ℚ) : ℤ := q.num.fdiv q.den

def pyRound (q : ℚ) : ℤ :=
  let f := ratFloor q
  let r := q - (f : ℚ)
  if r < 1 / 2 then f
  else if 1 / 2 < r then f + 1
  else if f % 2 = 0 then f else f + 1

/-- `WeatherService.analyze_disease_risk`, following the source's
if/elif chains and the evaluation order fungal → bacterial → pest →
spray for the `alerts`/`recommendations` accumulation. -/
def analyze_disease_risk (w : WeatherSnapshot) : RiskAssessment :=
  let temp := w.temperature
  let humidity := w.humidity
  let precipitation := w.precipitation
  let wind_speed := w.wind_speed
  let fungal : Level :=
    if humidity > 80 ∧ 15 ≤ temp ∧ temp ≤ 25 then .high
    else if humidity > 70 ∧ 10 ≤ temp ∧ temp ≤ 28 then .medium
    else .low
  let bacterial : Level :=
    if temp > 25 ∧ (humidity > 85 ∨ precipitation > 5) then .high
    else if temp > 20 ∧ humidity > 75 then .medium
    else .low
  let pest : Level :=
    if temp > 25 ∧ humidity < 60 then .high
    else if temp > 20 then .medium
    else .low
  let spray : SprayCond :=
    if wind_speed > 15 then .poor
    else if precipitation > 0 then .poor
    else if humidity < 40 then .moderate
    else .good
  let alerts : List (List Char) :=
    (if humidity > 80 ∧ 15 ≤ temp ∧ temp ≤ 25 then
      [ "⚠️ High risk of fungal diseases (Late Blight, Powdery Mildew)".toList]
     else if humidity > 70 ∧ 10 ≤ temp ∧ temp ≤ 28 then
      [ "Monitor for early signs of fungal infection".toList]
     else []) ++
    (if temp > 25 ∧ (humidity > 85 ∨ precipitation > 5) then
      [ "⚠️ Conditions favor bacterial diseases".toList]
     else []) ++
    (if temp > 25 ∧ humidity < 60 then
      [ "🐛 High pest activity expected (aphids, mites)".toList]
     else []) ++
    (if wind_speed > 15 then
      [ "💨 Too windy for spraying - wait for calmer conditions".toList]
     else if precipitation > 0 then
      [ "🌧️ Rain expected - delay spraying".toList]
     else [])
  let recommendations : List (List Char) :=
    (if humidity > 80 ∧ 15 ≤ temp ∧ temp ≤ 25 then
      [ "Apply preventive fungicide spray".toList]
     else []) ++
    (if temp > 25 ∧ (humidity > 85 ∨ precipitation > 5) then
      [ "Avoid overhead irrigation".toList]
     else []) ++
    (if temp > 25 ∧ humidity < 60 then
      [ "Scout fields regularly for pest presence".toList]
     else []) ++
    (if ¬(wind_speed > 15) ∧ ¬(precipitation > 0) ∧ humidity < 40 then
      [ "Spray early morning or evening for better absorption".toList]
     else [])
  let avg_risk : ℚ := (riskScoreOf fungal + riskScoreOf bacterial + riskScoreOf pest) / 3
  { fungal_disease_risk := fungal
    bacterial_disease_risk := bacterial
    pest_activity_risk := pest
    spray_conditions := spray
    alerts := alerts
    recommendations := recommendations
    overall_risk_score := pyRound (avg_risk * (333 / 10))
    overall_risk_level :=
      if avg_risk < 3 / 2 then .low else if avg_risk < 5 / 2 then .medium else .high }

/-- Forecast-day record as assembled by `get_forecast` (the fields the
heuristics read; all populated in every claim-relevant input). -/
structure ForecastDay where
  date : List Char
  temp_max : ℚ
  temp_min : ℚ
  precipitation : ℚ
  humidity : ℚ
  wind_speed : ℚ
  deriving DecidableEq

/-- Spray-window quality, the values `"excellent"`/`"good"`. -/
inductive WindowQuality where
  | excellent : WindowQuality
  | good : WindowQuality
  deriving DecidableEq

/-- One entry of the `get_optimal_spray_windows` output. -/
structure SprayWindow where
  date : List Char
  quality : WindowQuality
  recommended_time : List Char
  wind_speed : ℚ
  precipitation : ℚ
  humidity : ℚ
  deriving DecidableEq

/-- Window record built for a kept day. -/
def mkSprayWindow (d : ForecastDay) : SprayWindow :=
  { date := d.date
    quality := if d.humidity > 50 ∧ d.humidity < 80 then .excellent else .good
    recommended_time := "Early morning (6-9 AM) or evening (5-7 PM)".toList
    wind_speed := d.wind_speed
    precipitation := d.precipitation
    humidity := d.humidity }

/-- `WeatherService.get_optimal_spray_windows`: one pass over the
forecast, keeping days with `wind < 10 and rain < 1`. -/
def get_optimal_spray_windows : List ForecastDay → List SprayWindow
  | [] => []
  | d :: rest =>
    if d.wind_speed < 10 ∧ d.precipitation < 1 then
      mkSprayWindow d :: get_optimal_spray_windows rest
    else
      get_optimal_spray_windows rest

/-! ## IPM service outbreak heuristic (`ipm_service.py`) -/

/-- `IPMStrategyService._get_diseases_at_risk` (the `crop` argument is
accepted and unused, as in the source). -/
def get_diseases_at_risk (temp humidity rain : ℚ) (crop : List Char) : List (List Char) :=
  let _ := crop
  let ds : List (List Char) :=
    (if humidity > 80 ∧ 15 ≤ temp ∧ temp ≤ 25 then
      [ "Late Blight".toList, "Downy Mildew".toList, "Powdery Mildew".toList]
     else []) ++
    (if temp > 25 ∧ humidity > 70 then
      [ "Bacterial Spot".toList, "Bacterial Wilt".toList]
     else []) ++
    (if rain > 10 then
      [ "Root Rot".toList, "Damping Off".toList]
     else []) ++
    (if humidity < 50 ∧ temp > 25 then
      [ "Spider Mite infestation".toList, "Aphid outbreak".toList]
     else [])
  ds.take 4

/-- Per-day record produced inside `predict_outbreak_risk`'s loop. -/
structure DayRisk where
  date : List Char
  risk_score : ℤ
  risk_level : Level
  factors : List (List Char)
  diseases_at_risk : List (List Char)
  deriving DecidableEq

/-- Loop body of `IPMStrategyService.predict_outbreak_risk` for one
forecast day: `temp` is the midpoint of `temp_max` and `temp_min`, the
score accumulates the humidity/temperature/rain contributions in
source order and is stored as `min(risk_score, 100)`. -/
def predict_outbreak_day (day : ForecastDay) (crop : List Char) : DayRisk :=
  let temp : ℚ := (day.temp_max + day.temp_min) / 2
  let humidity := day.humidity
  let rain := day.precipitation
  let hScore : ℤ := if humidity > 80 then 30 else if humidity > 70 then 15 else 0
  let tScore : ℤ := if 15 ≤ temp ∧ temp ≤ 25 then 20 else 0
  let rScore : ℤ := if rain > 5 then 25 else if rain > 0 then 10 else 0
  let risk_score : ℤ := hScore + tScore + rScore
  let factors : List (List Char) :=
    (if humidity > 80 then [ "High humidity".toList] else []) ++
    (if 15 ≤ temp ∧ temp ≤ 25 then [ "Optimal fungal growth temperature".toList] else []) ++
    (if rain > 5 then [ "Significant rainfall".toList] else [])
  { date := day.date
    risk_score := if risk_score ≤ 100 then risk_score else 100
    risk_level := if risk_score < 30 then .low else if risk_score < 60 then .medium else .high
    factors := factors
    diseases_at_risk := get_diseases_at_risk temp humidity rain crop }

/-- Daily risk list of `predict_outbreak_risk` over a forecast. -/
def predict_outbreak_days (forecast : List ForecastDay) (crop : List Char) : List DayRisk :=
  forecast.map (fun d => predict_outbreak_day d crop)

/-! ## Conversational service (`chat_service.py`) -/

/-- Message role in a session history. -/
inductive Role where
  | user : Role
  | assistant : Role
  deriving DecidableEq

/-- One history entry `{"role": …, "content": …}`. -/
structure Msg where
  role : Role
  content : List Char
  deriving DecidableEq

/-- The process-wide `conversation_history` map, session id → ordered
message list, insertion ordered like a CPython dict. -/
def HistMap : Type := List (List Char × List Msg)

/-- Python `d.get(k)` on the history map. -/
def mapGet : HistMap → List Char → Option (List Msg)
  | [], _ => none
  | (k', v') :: t, k => if k' = k then some v' else mapGet t k

/-- Python `d[k] = v` on the history map. -/
def mapSet : HistMap → List Char → List Msg → HistMap
  | [], k, v => [(k, v)]
  | (k', v') :: t, k, v =>
    if k' = k then (k, v) :: t else (k', v') :: mapSet t k v

/-- History list of a session id (`[]` when the id is absent). -/
def histGet (m : HistMap) (sid : List Char) : List Msg :=
  (mapGet m sid).getD []

/-- Intent returned by `ConversationalService._detect_intent`. -/
inductive Intent where
  | weather : Intent
  | ipm : Intent
  | general : Intent
  deriving DecidableEq

/-- Whether `sub` occurs at the start of `hay`. -/
def leadsWith : List Char → List Char → Bool
  | [], _ => true
  | _ :: _, [] => false
  | c :: cs, h :: hs => c = h && leadsWith cs hs

/-- Python's substring test `sub in hay`. -/
def hasSub (sub : List Char) : List Char → Bool
  | [] => sub.isEmpty
  | h :: hs => leadsWith sub (h :: hs) || hasSub sub hs

def weatherKeywords : List (List Char) :=
  [ "weather".toList, "rain".toList, "temperature".toList, "humidity".toList,
    "spray".toList, "wind".toList, "forecast".toList]

def ipmKeywords : List (List Char) :=
  [ "ipm".toList, "strategy".toList, "plan".toList, "treatment plan".toList,
    "management plan".toList, "long term".toList]

/-- `ConversationalService._detect_intent`: lower-case the message and
test keyword containment, weather set first (`str.lower` agrees with
`Char.toLower` on the ASCII keywords involved). -/
def detect_intent (message : List Char) : Intent :=
  let ml := message.map Char.toLower
  if weatherKeywords.any (fun kw => hasSub kw ml) then .weather
  else if ipmKeywords.any (fun kw => hasSub kw ml) then .ipm
  else .general

/-- Effect of one `ConversationalService.chat` call on the history
map.  The AI/vision replies are outbound-call results and enter only
as the `reply` parameter; the assembled response payload is not
modelled here.  With an image, no history operation happens beyond the
initial session auto-creation; without one, the user message is
appended, and the assistant reply is appended only on the `general`
intent branch (the `weather` and `ipm` branches return before any
assistant append). -/
def chat_history_effect (m : HistMap) (sid user_message reply : List Char)
    (has_image : Bool) : HistMap :=
  let m1 := if (mapGet m sid).isSome then m else mapSet m sid []
  if has_image then m1
  else
    let m2 := mapSet m1 sid (histGet m1 sid ++ [⟨Role.user, user_message⟩])
    match detect_intent user_message with
    | .weather => m2
    | .ipm => m2
    | .general => mapSet m2 sid (histGet m2 sid ++ [⟨Role.assistant, reply⟩])

/-- `ConversationalService.clear_history`: reset a present session id
to the empty list, leave the map unchanged otherwise. -/
def clear_history (m : HistMap) (sid : List Char) : HistMap :=
  if (mapGet m sid).isSome then mapSet m sid [] else m

/-! ## AI provider abstraction (`ai_provider.py`) -/

/-- Backend selected by `SmartAIProvider._get_available_provider`. -/
inductive ProviderTag where
  | ollama : ProviderTag
  | groq : ProviderTag
  | gemini : ProviderTag
  | huggingface : ProviderTag
  deriving DecidableEq

/-- Environment/reachability state read by `SmartAIProvider`: the two
credential variables (empty list = unset or empty, both falsy in
Python) and the result of the `check_connection` probe on the local
Ollama backend (probe exceptions are swallowed to `false` in the
source). -/
structure SmartState where
  groq_api_key : List Char
  google_api_key : List Char
  ollama_reachable : Bool
  deriving DecidableEq

/-- `SmartAIProvider._get_available_provider`: HuggingFace for vision;
for text, Groq when its key is configured, else Gemini when its key is
configured, else Ollama when reachable, else HuggingFace.  Total — the
source's chain has no raising operation (the probe swallows its own
exceptions). -/
def get_available_provider (st : SmartState) (need_vision : Bool) : ProviderTag :=
  if need_vision then .huggingface
  else if st.groq_api_key ≠ [] then .groq
  else if st.google_api_key ≠ [] then .gemini
  else if st.ollama_reachable then .ollama
  else .huggingface

/-- Outcome of one outbound HTTP call as seen inside a provider's
`try` block: a response with status, raw text and the `.json()` result
(`none` when decoding the body as JSON raises), an
`aiohttp.ClientError` (connection/transport/content-type errors), or
any other exception (timeouts included).  The carried texts stand for
the runtime `str(e)` / `await resp.text()` values. -/
inductive HttpOutcome where
  | resp (status : Nat) (rawText : List Char) (body : Option Json) : HttpOutcome
  | clientErr (msg : List Char) : HttpOutcome
  | otherErr (msg : List Char) : HttpOutcome

/-- Stand-in for the `str(e)` of the `AttributeError`/`TypeError`
raised when the decoded body does not have the shape the extraction
expression assumes. -/
def shapeErrText : List Char := "body does not have the expected shape".toList

/-- Stand-in for the `str(e)` of the error raised when the body is not
decodable JSON. -/
def jsonErrText : List Char := "body is not valid JSON".toList

/-- `OllamaProvider.analyze_image`, as a function of the call outcome.
On `resp.status == 200` it returns
`data.get("response", "Unable to analyze image")` — whatever JSON value
that field holds; every failure path returns an error string
(`ClientError` and all other exceptions are caught). -/
def ollama_analyze_image (o : HttpOutcome) : Json :=
  match o with
  | .resp status rawText body =>
    if status = 200 then
      match body with
      | some (Json.obj kvs) =>
        (kvsGet kvs ( "response".toList)).getD (Json.str ( "Unable to analyze image".toList))
      | some _ => Json.str (( "Error analyzing image: ".toList) ++ shapeErrText)
      | none => Json.str (( "Error analyzing image: ".toList) ++ jsonErrText)
    else Json.str (( "Error: ".toList) ++ rawText)
  | .clientErr m =>
    Json.str (( "Connection error: Make sure Ollama is running. Error: ".toList) ++ m)
  | .otherErr m =>
    Json.str (( "Error analyzing image: ".toList) ++ m)

/-- `OllamaProvider.generate_text` (single bare `except Exception`). -/
def ollama_generate_text (o : HttpOutcome) : Json :=
  match o with
  | .resp status rawText body =>
    if status = 200 then
      match body with
      | some (Json.obj kvs) => (kvsGet kvs ( "response".toList)).getD (Json.str [])
      | some _ => Json.str (( "Error generating text: ".toList) ++ shapeErrText)
      | none => Json.str (( "Error generating text: ".toList) ++ jsonErrText)
    else Json.str (( "Error: ".toList) ++ rawText)
  | .clientErr m => Json.str (( "Error generating text: ".toList) ++ m)
  | .otherErr m => Json.str (( "Error generating text: ".toList) ++ m)

/-- `OllamaProvider.chat`: on 200 it evaluates
`data.get("message", {}).get("content", "")`. -/
def ollama_chat (o : HttpOutcome) : Json :=
  match o with
  | .resp status rawText body =>
    if status = 200 then
      match body with
      | some (Json.obj kvs) =>
        (match (kvsGet kvs ( "message".toList)).getD (Json.obj []) with
         | Json.obj mkvs => (kvsGet mkvs ( "content".toList)).getD (Json.str [])
         | _ => Json.str (( "Error in chat: ".toList) ++ shapeErrText))
      | some _ => Json.str (( "Error in chat: ".toList) ++ shapeErrText)
      | none => Json.str (( "Error in chat: ".toList) ++ jsonErrText)
    else Json.str (( "Error: ".toList) ++ rawText)
  | .clientErr m => Json.str (( "Error in chat: ".toList) ++ m)
  | .otherErr m => Json.str (( "Error in chat: ".toList) ++ m)

/-- Evaluation of `data["choices"][0]["message"]["content"]`; `none`
stands for the `KeyError`/`IndexError`/`TypeError` the chain raises
when the body lacks that shape. -/
def groqExtract (body : Json) : Option Json :=
  match body with
  | Json.obj kvs =>
    match kvsGet kvs ( "choices".toList) with
    | some (Json.arr (first :: _)) =>
      match first with
      | Json.obj ckvs =>
        match kvsGet ckvs ( "message".toList) with
        | some (Json.obj mkvs) => kvsGet mkvs ( "content".toList)
        | _ => none
      | _ => none
    | _ => none
  | _ => none

/-- `GroqProvider.chat`, as a function of the call outcome (the
message-list payload does not influence the outcome handling). -/
def groq_chat (o : HttpOutcome) : Json :=
  match o with
  | .resp status rawText body =>
    if status = 200 then
      match body with
      | some b =>
        (match groqExtract b with
         | some v => v
         | none => Json.str (( "Error: ".toList) ++ shapeErrText))
      | none => Json.str (( "Error: ".toList) ++ jsonErrText)
    else Json.str (( "Groq API Error: ".toList) ++ rawText)
  | .clientErr m => Json.str (( "Error: ".toList) ++ m)
  | .otherErr m => Json.str (( "Error: ".toList) ++ m)

/-- `GroqProvider.generate_text` builds a message list and delegates
to `GroqProvider.chat`, so its outcome handling is `groq_chat`. -/
def groq_generate_text (o : HttpOutcome) : Json :=
  groq_chat o

/-- `GroqProvider.analyze_image`: same envelope extraction against the
vision endpoint. -/
def groq_analyze_image (o : HttpOutcome) : Json :=
  match o with
  | .resp status rawText body =>
    if status = 200 then
      match body with
      | some b =>
        (match groqExtract b with
         | some v => v
         | none => Json.str (( "Error: ".toList) ++ shapeErrText))
      | none => Json.str (( "Error: ".toList) ++ jsonErrText)
    else Json.str (( "Groq API Error: ".toList) ++ rawText)
  | .clientErr m => Json.str (( "Error: ".toList) ++ m)
  | .otherErr m => Json.str (( "Error: ".toList) ++ m)

/-- Whether a Python value is a text string. -/
def isStr : Json → Bool
  | .str _ => true
  | _ => false

/-! ## Concrete inputs used by witnesses and counterexamples -/

/-- Text of the JSON object `\x7b"a": 1\x7d`. -/
def exObjText : List Char := [obrace] ++ ( "\"a\": 1".toList) ++ [cbrace]

/-- Prose prefix without braces. -/
def exPre : List Char := "Sure, here it is: ".toList

/-- Prose suffix without braces. -/
def exPost : List Char := " Hope this helps.".toList

/-- Raw text holding exactly one well-formed JSON object, but whose
trailing prose contains a stray close brace, so the greedy span is not
valid JSON. -/
def exBadRaw : List Char :=
  ( "ok ".toList) ++ exObjText ++ ( " oops".toList) ++ [cbrace]

/-- Raw text that is exactly the JSON object `\x7b"foo": 1\x7d` — valid
JSON, unrelated to any result schema. -/
def exFooRaw : List Char := [obrace] ++ ( "\"foo\": 1".toList) ++ [cbrace]

/-- Raw text with no open brace at all. -/
def exPlainRaw : List Char := "the model returned prose only".toList

/-- Weather snapshot of the §8 scenario. -/
def exSnapshot : WeatherSnapshot :=
  { temperature := 20, humidity := 85, precipitation := 0, wind_speed := 5 }

/-- Forecast day of the outbreak scenario: humidity 85, midpoint
temperature 20, precipitation 8. -/
def exOutbreakDay : ForecastDay :=
  { date := "2026-10-12".toList, temp_max := 25, temp_min := 15,
    precipitation := 8, humidity := 85, wind_speed := 4 }

/-- Forecast day kept by the spray-window filter. -/
def exSprayDay : ForecastDay :=
  { date := "2026-10-13".toList, temp_max := 24, temp_min := 12,
    precipitation := 0, humidity := 60, wind_speed := 5 }

/-- Ollama 200 response whose `response` field holds a JSON number, not
a string. -/
def exNumBodyOutcome : HttpOutcome :=
  HttpOutcome.resp 200 [] (some (Json.obj [( "response".toList, Json.num 5)]))

/-! ## Helper lemmas -/

theorem dropWhile_append_of_all (p : Char → Bool) (l₁ l₂ : List Char)
    (h : ∀ c ∈ l₁, p c = true) :
    (l₁ ++ l₂).dropWhile p = l₂.dropWhile p := by
  induction l₁ with
  | nil => rfl
  | cons a t ih =>
    have ha : p a = true := h a (by simp)
    simp [List.dropWhile_cons, ha, ih (fun c hc => h c (by simp [hc]))]

theorem dropWhile_cons_of_false (p : Char → Bool) (a : Char) (l : List Char)
    (h : p a = false) : (a :: l).dropWhile p = a :: l := by
  simp [List.dropWhile_cons, h]

theorem head_of_dropWhile (p : Char → Bool) :
    ∀ (s : List Char) {a : Char} {l : List Char},
      s.dropWhile p = a :: l → p a = false := by
  intro s
  induction s with
  | nil => intro a l h; cases h
  | cons b t ih =>
    intro a l h
    rw [List.dropWhile_cons] at h
    by_cases hb : p b = true
    · exact ih (by simpa [hb] using h)
    · have hb' : p b = false := by simpa using hb
      rw [if_neg (by simp [hb'])] at h
      obtain ⟨rfl, rfl⟩ := List.cons.injEq .. ▸ h
      · exact hb'

theorem jsonSpan_isolate (pre objT post : List Char)
    (hpre : ∀ c ∈ pre, c ≠ obrace ∧ c ≠ cbrace)
    (hpost : ∀ c ∈ post, c ≠ obrace ∧ c ≠ cbrace)
    (hhead : objT.head? = some obrace)
    (hlast : objT.getLast? = some cbrace) :
    jsonSpan (pre ++ objT ++ post) = some objT := by
  obtain ⟨ot, rfl⟩ : ∃ ot, objT = obrace :: ot := by
    cases objT with
    | nil => cases hhead
    | cons a t =>
      refine ⟨t, ?_⟩
      have ha : a = obrace := by simpa using hhead
      rw [ha]
  have step1 : (pre ++ (obrace :: ot) ++ post).dropWhile (fun c => !(c == obrace))
      = (obrace :: ot) ++ post := by
    rw [List.append_assoc,
      dropWhile_append_of_all _ pre _ (fun c hc => by simp [(hpre c hc).1])]
    exact dropWhile_cons_of_false _ _ _ (by simp)
  obtain ⟨rr, hrr⟩ : ∃ rr, (obrace :: ot).reverse = cbrace :: rr := by
    have hrev : (obrace :: ot).reverse.head? = some cbrace := by
      rw [List.head?_reverse]; exact hlast
    cases hc : (obrace :: ot).reverse with
    | nil => rw [hc] at hrev; cases hrev
    | cons a t =>
      rw [hc] at hrev
      refine ⟨t, ?_⟩
      have ha : a = cbrace := by simpa using hrev
      rw [ha]
  have step2 : ((((obrace :: ot) ++ post).reverse).dropWhile (fun c => !(c == cbrace))).reverse
      = obrace :: ot := by
    rw [List.reverse_append, hrr,
      dropWhile_append_of_all _ post.reverse _
        (fun c hc => by simp [(hpost c (List.mem_reverse.mp hc)).2]),
      dropWhile_cons_of_false _ _ _ (by simp)]
    rw [← hrr, List.reverse_reverse]
  unfold jsonSpan
  rw [step1, step2]
  rw [if_neg (by simp), if_neg (by simp)]

theorem jsonSpan_head {s t : List Char} (h : jsonSpan s = some t) :
    t.head? = some obrace := by
  unfold jsonSpan at h
  split_ifs at h with h1 h2
  injection h with h'
  obtain ⟨a, l, h3⟩ : ∃ a l, s.dropWhile (fun c => !(c == obrace)) = a :: l := by
    cases hc : s.dropWhile (fun c => !(c == obrace)) with
    | nil => exact absurd hc h1
    | cons a l => exact ⟨a, l, rfl⟩
  have ha : a = obrace := by simpa using head_of_dropWhile _ s h3
  have hsuf : (s.dropWhile (fun c => !(c == obrace))).reverse.dropWhile
      (fun c => !(c == cbrace)) <:+ (s.dropWhile (fun c => !(c == obrace))).reverse :=
    List.dropWhile_suffix _
  rw [h3] at h' h2
  have hpref : t <+: a :: l := by
    have h4 := List.reverse_prefix.mpr hsuf
    rw [List.reverse_reverse, h3] at h4
    rwa [h'] at h4
  have hne : t ≠ [] := fun hx => h2 (by rw [h', hx])
  obtain ⟨b, m, rfl⟩ : ∃ b m, t = b :: m := by
    cases t with
    | nil => exact absurd rfl hne
    | cons b m => exact ⟨b, m, rfl⟩
  obtain ⟨u, hu⟩ := hpref
  have hb : b = a := by simpa using congrArg List.head? hu
  rw [List.head?_cons, hb, ha]

theorem jsonSpan_none_of_no_obrace {s : List Char} (h : ∀ c ∈ s, c ≠ obrace) :
    jsonSpan s = none := by
  unfold jsonSpan
  have hnil : s.dropWhile (fun c => !(c == obrace)) = [] := by
    rw [List.dropWhile_eq_nil_iff]
    intro x hx
    simp [h x hx]
  rw [if_pos hnil]

theorem skipWs_cons_obrace (r : List Char) : skipWs (obrace :: r) = obrace :: r := by
  have h : isJsonWs obrace = false := by decide
  simp [skipWs, List.dropWhile_cons, h]

theorem parseValue_obrace {f : Nat} {r : List Char} {v : Json} {rest : List Char}
    (h : parseValue (f + 1) (obrace :: r) = some (v, rest)) :
    ∃ kvs, v = Json.obj kvs := by
  simp only [parseValue, skipWs_cons_obrace] at h
  simp at h
  cases h2 : skipWs r with
  | nil => rw [h2] at h; simp at h
  | cons c2 r2 =>
    rw [h2] at h
    simp at h
    by_cases hc2 : c2 = cbrace
    · rw [if_pos hc2] at h
      exact ⟨[], by
        have hv := congrArg Prod.fst (Option.some.injEq .. ▸ h)
        simp at h
        exact h.1.symm⟩
    · rw [if_neg hc2] at h
      cases h3 : parseMembers f (c2 :: r2) with
      | none => rw [h3] at h; simp at h
      | some p =>
        rw [h3] at h
        simp at h
        exact ⟨p.1, h.1.symm⟩

theorem parseJson_obrace {s : List Char} {v : Json}
    (hhead : s.head? = some obrace) (h : parseJson s = some v) :
    ∃ kvs, v = Json.obj kvs := by
  obtain ⟨r, rfl⟩ : ∃ r, s = obrace :: r := by
    cases s with
    | nil => cases hhead
    | cons a t =>
      refine ⟨t, ?_⟩
      have ha : a = obrace := by simpa using hhead
      rw [ha]
  unfold parseJson at h
  cases h1 : parseValue ((obrace :: r).length + 1) (obrace :: r) with
  | none => rw [h1] at h; simp at h
  | some p =>
    obtain ⟨v', rest⟩ := p
    rw [h1] at h
    simp only [] at h
    by_cases hre : skipWs rest = []
    · have hv : v' = v := by
        rw [if_pos hre] at h
        injection h
      exact hv ▸ parseValue_obrace h1
    · rw [if_neg hre] at h
      exact Option.noConfusion h

theorem parse_disease_response_of_span {raw t : List Char} {v : Json}
    (hspan : jsonSpan raw = some t) (hp : parseJson t = some v) :
    parse_disease_response raw = v := by
  simp [parse_disease_response, hspan, hp]

theorem parse_disease_response_no_span {raw : List Char}
    (hspan : jsonSpan raw = none) :
    parse_disease_response raw = diseaseFallback raw := by
  simp [parse_disease_response, hspan]

theorem parse_disease_response_bad_span {raw t : List Char}
    (hspan : jsonSpan raw = some t) (hp : parseJson t = none) :
    parse_disease_response raw = diseaseFallback raw := by
  simp [parse_disease_response, hspan, hp]

theorem parse_strategy_response_of_span {raw t : List Char} {v : Json}
    (hspan : jsonSpan raw = some t) (hp : parseJson t = some v) :
    parse_strategy_response raw = v := by
  simp [parse_strategy_response, hspan, hp]

theorem parse_strategy_response_no_span {raw : List Char}
    (hspan : jsonSpan raw = none) :
    parse_strategy_response raw = strategyFallback raw := by
  simp [parse_strategy_response, hspan]

theorem parse_strategy_response_bad_span {raw t : List Char}
    (hspan : jsonSpan raw = some t) (hp : parseJson t = none) :
    parse_strategy_response raw = strategyFallback raw := by
  simp [parse_strategy_response, hspan, hp]

theorem mapGet_mapSet_self (m : HistMap) (k : List Char) (v : List Msg) :
    mapGet (mapSet m k v) k = some v := by
  induction m with
  | nil => simp [mapSet, mapGet]
  | cons p t ih =>
    obtain ⟨k', v'⟩ := p
    by_cases h : k' = k
    · simp [mapSet, mapGet, h]
    · simp [mapSet, mapGet, h, ih]

theorem mapGet_mapSet_ne (m : HistMap) (k k' : List Char) (v : List Msg)
    (h : k' ≠ k) : mapGet (mapSet m k v) k' = mapGet m k' := by
  induction m with
  | nil =>
    have h' : ¬(k = k') := fun hx => h hx.symm
    simp [mapSet, mapGet, h']
  | cons p t ih =>
    obtain ⟨k0, v0⟩ := p
    by_cases h0 : k0 = k
    · subst h0
      have h' : ¬(k0 = k') := fun hx => h hx.symm
      simp [mapSet, mapGet, h']
    · simp only [mapSet, if_neg h0]
      by_cases h1 : k0 = k'
      · simp [mapGet, h1]
      · simp [mapGet, h1, ih]

theorem spray_windows_eq_filter_map (f : List ForecastDay) :
    get_optimal_spray_windows f =
      (f.filter (fun d => decide (d.wind_speed < 10 ∧ d.precipitation < 1))).map
        mkSprayWindow := by
  induction f with
  | nil => rfl
  | cons d rest ih =>
    by_cases h : d.wind_speed < 10 ∧ d.precipitation < 1
    · simp [get_optimal_spray_windows, List.filter_cons, h, ih]
    · simp [get_optimal_spray_windows, List.filter_cons, h, ih]

/-! ## Claim theorems -/

/-- Claim C1: for every weather snapshot, `analyze_disease_risk` returns
exactly the levels of the §4.3 rule table (fungal high iff
humidity>80 ∧ 15≤temp≤25, else medium iff humidity>70 ∧ 10≤temp≤28,
else low; bacterial high iff temp>25 ∧ (humidity>85 ∨ precipitation>5),
else medium iff temp>20 ∧ humidity>75, else low; pest high iff
temp>25 ∧ humidity<60, else medium iff temp>20, else low; spray poor iff
windSpeed>15 ∨ precipitation>0, else moderate iff humidity<40, else
good), the overall score is `round(mean × 33.3)` over the level values
1/2/3 with Python's round-half-to-even, the overall level thresholds sit
at mean<1.5 and mean<2.5, and on the snapshot
temperature 20, humidity 85, precipitation 0, windSpeed 5 the result is
fungal=high, bacterial=low, spray=good. -/
theorem agriguard_c1_assess_risk :
    (∀ w : WeatherSnapshot,
      ((analyze_disease_risk w).fungal_disease_risk = Level.high ↔
        (w.humidity > 80 ∧ 15 ≤ w.temperature ∧ w.temperature ≤ 25)) ∧
      ((analyze_disease_risk w).fungal_disease_risk = Level.medium ↔
        (¬(w.humidity > 80 ∧ 15 ≤ w.temperature ∧ w.temperature ≤ 25) ∧
          (w.humidity > 70 ∧ 10 ≤ w.temperature ∧ w.temperature ≤ 28))) ∧
      ((analyze_disease_risk w).fungal_disease_risk = Level.low ↔
        (¬(w.humidity > 80 ∧ 15 ≤ w.temperature ∧ w.temperature ≤ 25) ∧
          ¬(w.humidity > 70 ∧ 10 ≤ w.temperature ∧ w.temperature ≤ 28))) ∧
      ((analyze_disease_risk w).bacterial_disease_risk = Level.high ↔
        (w.temperature > 25 ∧ (w.humidity > 85 ∨ w.precipitation > 5))) ∧
      ((analyze_disease_risk w).bacterial_disease_risk = Level.medium ↔
        (¬(w.temperature > 25 ∧ (w.humidity > 85 ∨ w.precipitation > 5)) ∧
          (w.temperature > 20 ∧ w.humidity > 75))) ∧
      ((analyze_disease_risk w).bacterial_disease_risk = Level.low ↔
        (¬(w.temperature > 25 ∧ (w.humidity > 85 ∨ w.precipitation > 5)) ∧
          ¬(w.temperature > 20 ∧ w.humidity > 75))) ∧
      ((analyze_disease_risk w).pest_activity_risk = Level.high ↔
        (w.temperature > 25 ∧ w.humidity < 60)) ∧
      ((analyze_disease_risk w).pest_activity_risk = Level.medium ↔
        (¬(w.temperature > 25 ∧ w.humidity < 60) ∧ w.temperature > 20)) ∧
      ((analyze_disease_risk w).pest_activity_risk = Level.low ↔
        (¬(w.temperature > 25 ∧ w.humidity < 60) ∧ ¬(w.temperature > 20))) ∧
      ((analyze_disease_risk w).spray_conditions = SprayCond.poor ↔
        (w.wind_speed > 15 ∨ w.precipitation > 0)) ∧
      ((analyze_disease_risk w).spray_conditions = SprayCond.moderate ↔
        (¬(w.wind_speed > 15 ∨ w.precipitation > 0) ∧ w.humidity < 40)) ∧
      ((analyze_disease_risk w).spray_conditions = SprayCond.good ↔
        (¬(w.wind_speed > 15 ∨ w.precipitation > 0) ∧ ¬(w.humidity < 40))) ∧
      (analyze_disease_risk w).overall_risk_score =
        pyRound ((riskScoreOf (analyze_disease_risk w).fungal_disease_risk +
          riskScoreOf (analyze_disease_risk w).bacterial_disease_risk +
          riskScoreOf (analyze_disease_risk w).pest_activity_risk) / 3 * (333 / 10)) ∧
      ((analyze_disease_risk w).overall_risk_level = Level.low ↔
        (riskScoreOf (analyze_disease_risk w).fungal_disease_risk +
          riskScoreOf (analyze_disease_risk w).bacterial_disease_risk +
          riskScoreOf (analyze_disease_risk w).pest_activity_risk) / 3 < 3 / 2) ∧
      ((analyze_disease_risk w).overall_risk_level = Level.medium ↔
        (¬((riskScoreOf (analyze_disease_risk w).fungal_disease_risk +
          riskScoreOf (analyze_disease_risk w).bacterial_disease_risk +
          riskScoreOf (analyze_disease_risk w).pest_activity_risk) / 3 < 3 / 2) ∧
        (riskScoreOf (analyze_disease_risk w).fungal_disease_risk +
          riskScoreOf (analyze_disease_risk w).bacterial_disease_risk +
          riskScoreOf (analyze_disease_risk w).pest_activity_risk) / 3 < 5 / 2)) ∧
      ((analyze_disease_risk w).overall_risk_level = Level.high ↔
        ¬((riskScoreOf (analyze_disease_risk w).fungal_disease_risk +
          riskScoreOf (analyze_disease_risk w).bacterial_disease_risk +
          riskScoreOf (analyze_disease_risk w).pest_activity_risk) / 3 < 5 / 2))) ∧
    (analyze_disease_risk exSnapshot).fungal_disease_risk = Level.high ∧
    (analyze_disease_risk exSnapshot).bacterial_disease_risk = Level.low ∧
    (analyze_disease_risk exSnapshot).spray_conditions = SprayCond.good := by
  constructor
  · intro w
    have hf : (analyze_disease_risk w).fungal_disease_risk =
        (if w.humidity > 80 ∧ 15 ≤ w.temperature ∧ w.temperature ≤ 25 then Level.high
         else if w.humidity > 70 ∧ 10 ≤ w.temperature ∧ w.temperature ≤ 28 then Level.medium
         else Level.low) := rfl
    have hb : (analyze_disease_risk w).bacterial_disease_risk =
        (if w.temperature > 25 ∧ (w.humidity > 85 ∨ w.precipitation > 5) then Level.high
         else if w.temperature > 20 ∧ w.humidity > 75 then Level.medium
         else Level.low) := rfl
    have hp : (analyze_disease_risk w).pest_activity_risk =
        (if w.temperature > 25 ∧ w.humidity < 60 then Level.high
         else if w.temperature > 20 then Level.medium
         else Level.low) := rfl
    have hs : (analyze_disease_risk w).spray_conditions =
        (if w.wind_speed > 15 then SprayCond.poor
         else if w.precipitation > 0 then SprayCond.poor
         else if w.humidity < 40 then SprayCond.moderate
         else SprayCond.good) := rfl
    have hl : (analyze_disease_risk w).overall_risk_level =
        (if (riskScoreOf (analyze_disease_risk w).fungal_disease_risk +
          riskScoreOf (analyze_disease_risk w).bacterial_disease_risk +
          riskScoreOf (analyze_disease_risk w).pest_activity_risk) / 3 < 3 / 2 then Level.low
         else if (riskScoreOf (analyze_disease_risk w).fungal_disease_risk +
          riskScoreOf (analyze_disease_risk w).bacterial_disease_risk +
          riskScoreOf (analyze_disease_risk w).pest_activity_risk) / 3 < 5 / 2 then Level.medium
         else Level.high) := rfl
    refine ⟨?_, ?_, ?_, ?_, ?_, ?_, ?_, ?_, ?_, ?_, ?_, ?_, rfl, ?_, ?_, ?_⟩
    · rw [hf]; clear hf hb hp hs hl; split_ifs with h1 h2 <;> simp_all
    · rw [hf]; clear hf hb hp hs hl; split_ifs with h1 h2 <;> simp_all
    · rw [hf]; clear hf hb hp hs hl; split_ifs with h1 h2 <;> simp_all
    · rw [hb]; clear hf hb hp hs hl; split_ifs with h1 h2 <;> simp_all
    · rw [hb]; clear hf hb hp hs hl; split_ifs with h1 h2 <;> simp_all
    · rw [hb]; clear hf hb hp hs hl; split_ifs with h1 h2 <;> simp_all
    · rw [hp]; clear hf hb hp hs hl; split_ifs with h1 h2 <;> simp_all
    · rw [hp]; clear hf hb hp hs hl; split_ifs with h1 h2 <;> simp_all
    · rw [hp]; clear hf hb hp hs hl; split_ifs with h1 h2 <;> simp_all
    · rw [hs]; clear hf hb hp hs hl; split_ifs with h1 h2 h3 <;> simp_all
    · rw [hs]; clear hf hb hp hs hl; split_ifs with h1 h2 h3 <;> simp_all
    · rw [hs]; clear hf hb hp hs hl; split_ifs with h1 h2 h3 <;> simp_all
    · rw [hl]
      clear hf hb hp hs hl
      generalize (riskScoreOf (analyze_disease_risk w).fungal_disease_risk +
          riskScoreOf (analyze_disease_risk w).bacterial_disease_risk +
          riskScoreOf (analyze_disease_risk w).pest_activity_risk) / 3 = m
      split_ifs with h1 h2 <;> simp_all
    · rw [hl]
      clear hf hb hp hs hl
      generalize (riskScoreOf (analyze_disease_risk w).fungal_disease_risk +
          riskScoreOf (analyze_disease_risk w).bacterial_disease_risk +
          riskScoreOf (analyze_disease_risk w).pest_activity_risk) / 3 = m
      split_ifs with h1 h2 <;> simp_all
    · rw [hl]
      clear hf hb hp hs hl
      generalize (riskScoreOf (analyze_disease_risk w).fungal_disease_risk +
          riskScoreOf (analyze_disease_risk w).bacterial_disease_risk +
          riskScoreOf (analyze_disease_risk w).pest_activity_risk) / 3 = m
      split_ifs with h1 h2 <;> simp_all
      linarith
  · exact ⟨by decide, by decide, by decide⟩

/-- Claim C2 counterexample: the raw text `ok \x7b"a": 1\x7d oops\x7d`
contains exactly one well-formed JSON object surrounded by prose, yet
because the prose holds a stray close brace the greedy
first-brace…last-brace span is not valid JSON and the normalizer
returns the fallback record instead of that object. -/
theorem agriguard_c2_counterexample :
    parseJson exObjText = some (Json.obj [( "a".toList, Json.num 1)]) ∧
    exBadRaw = ( "ok ".toList) ++ exObjText ++ (( " oops".toList) ++ [cbrace]) ∧
    parse_disease_response exBadRaw = diseaseFallback exBadRaw ∧
    parse_disease_response exBadRaw ≠ Json.obj [( "a".toList, Json.num 1)] := by
  refine ⟨by rfl, by rfl, by rfl, fun h => ?_⟩
  have h2 := congrArg topKeys h
  exact absurd h2 (by decide)

/-- Claim C2 (amended): when the surrounding prose contains no brace
characters, extraction returns a mapping equal to the embedded JSON
object with no further schema validation (both at the diagnosis and
the strategy call site); and a raw text containing no open brace yields
the call-site fallback record tagged `parse_error=true`. -/
theorem agriguard_c2_extract_or_fallback :
    (∀ (pre objText post : List Char) (kvs : List (List Char × Json)),
      (∀ c ∈ pre, c ≠ obrace ∧ c ≠ cbrace) →
      (∀ c ∈ post, c ≠ obrace ∧ c ≠ cbrace) →
      objText.head? = some obrace →
      objText.getLast? = some cbrace →
      parseJson objText = some (Json.obj kvs) →
      parse_disease_response (pre ++ objText ++ post) = Json.obj kvs ∧
      parse_strategy_response (pre ++ objText ++ post) = Json.obj kvs) ∧
    (∀ raw : List Char, (∀ c ∈ raw, c ≠ obrace) →
      parse_disease_response raw = diseaseFallback raw ∧
      objGet (parse_disease_response raw) ( "parse_error".toList) = some (Json.bool true) ∧
      parse_strategy_response raw = strategyFallback raw ∧
      objGet (parse_strategy_response raw) ( "parse_error".toList) = some (Json.bool true)) := by
  constructor
  · intro pre objText post kvs hpre hpost hhead hlast hp
    have hspan := jsonSpan_isolate pre objText post hpre hpost hhead hlast
    exact ⟨parse_disease_response_of_span hspan hp,
      parse_strategy_response_of_span hspan hp⟩
  · intro raw h
    have hnone := jsonSpan_none_of_no_obrace h
    have hd := parse_disease_response_no_span hnone
    have hs := parse_strategy_response_no_span hnone
    refine ⟨hd, ?_, hs, ?_⟩
    · rw [hd]; rfl
    · rw [hs]; rfl

/-- Claim C2 witness: concrete round trip `Sure, here it is:
\x7b"a": 1\x7d Hope this helps.` extracts to the object, and a
brace-free raw text falls back. -/
theorem agriguard_c2_witness :
    parse_disease_response (exPre ++ exObjText ++ exPost) =
      Json.obj [( "a".toList, Json.num 1)] ∧
    parse_disease_response exPlainRaw = diseaseFallback exPlainRaw := by
  constructor
  · exact (agriguard_c2_extract_or_fallback.1 exPre exObjText exPost
      [( "a".toList, Json.num 1)] (by decide) (by decide) (by decide) (by decide)
      (by rfl)).1
  · exact (agriguard_c2_extract_or_fallback.2 exPlainRaw (by decide)).1

/-- Claim C3 counterexample: the raw model output `\x7b"foo": 1\x7d`
parses, so the normalizer returns `\x7b"foo": 1\x7d` as-is — a record
that neither covers the diagnosis result schema (it lacks
`disease_detected` and every other schema field) nor equals the
fallback record, refuting the claimed two-shape invariant. -/
theorem agriguard_c3_counterexample :
    parse_disease_response exFooRaw = Json.obj [( "foo".toList, Json.num 1)] ∧
    ¬(coversDiseaseSchema (parse_disease_response exFooRaw) = true ∨
      parse_disease_response exFooRaw = diseaseFallback exFooRaw) := by
  refine ⟨by rfl, ?_⟩
  rintro (h | h)
  · exact absurd h (by decide)
  · exact absurd (congrArg topKeys h) (by decide)

/-- Claim C3 (amended): every normalized result is either the JSON
object extracted and parsed from the raw text, returned as-is with no
schema validation, or exactly the call-site fallback record carrying
`parse_error=true`; no third shape occurs (shown for the diagnosis and
strategy normalizers). -/
theorem agriguard_c3_normalizer_shape :
    ∀ raw : List Char,
      ((parse_disease_response raw = diseaseFallback raw ∧
        objGet (parse_disease_response raw) ( "parse_error".toList) =
          some (Json.bool true)) ∨
       (∃ t kvs, jsonSpan raw = some t ∧ parseJson t = some (Json.obj kvs) ∧
        parse_disease_response raw = Json.obj kvs)) ∧
      ((parse_strategy_response raw = strategyFallback raw ∧
        objGet (parse_strategy_response raw) ( "parse_error".toList) =
          some (Json.bool true)) ∨
       (∃ t kvs, jsonSpan raw = some t ∧ parseJson t = some (Json.obj kvs) ∧
        parse_strategy_response raw = Json.obj kvs)) := by
  intro raw
  constructor
  · cases hspan : jsonSpan raw with
    | none =>
      left
      have hd := parse_disease_response_no_span hspan
      exact ⟨hd, by rw [hd]; rfl⟩
    | some t =>
      cases hp : parseJson t with
      | none =>
        left
        have hd := parse_disease_response_bad_span hspan hp
        exact ⟨hd, by rw [hd]; rfl⟩
      | some v =>
        right
        obtain ⟨kvs, rfl⟩ := parseJson_obrace (jsonSpan_head hspan) hp
        exact ⟨t, kvs, rfl, hp, parse_disease_response_of_span hspan hp⟩
  · cases hspan : jsonSpan raw with
    | none =>
      left
      have hd := parse_strategy_response_no_span hspan
      exact ⟨hd, by rw [hd]; rfl⟩
    | some t =>
      cases hp : parseJson t with
      | none =>
        left
        have hd := parse_strategy_response_bad_span hspan hp
        exact ⟨hd, by rw [hd]; rfl⟩
      | some v =>
        right
        obtain ⟨kvs, rfl⟩ := parseJson_obrace (jsonSpan_head hspan) hp
        exact ⟨t, kvs, rfl, hp, parse_strategy_response_of_span hspan hp⟩

/-- Claim C10: whenever no JSON object can be extracted from the raw
model response, `_parse_disease_response` (and hence `analyze_leaf`)
returns the diagnosis fallback: `disease_detected=true`, confidence
0.7, urgency `medium`, empty organic and chemical treatment maps, the
raw text as description, and `parse_error=true` — a parse failure is
presented as a positive detection at fixed 0.7 confidence. -/
theorem agriguard_c10_disease_fallback :
    ∀ raw : List Char,
      (jsonSpan raw = none ∨ ∃ t, jsonSpan raw = some t ∧ parseJson t = none) →
      parse_disease_response raw = diseaseFallback raw ∧
      objGet (parse_disease_response raw) ( "disease_detected".toList) =
        some (Json.bool true) ∧
      objGet (parse_disease_response raw) ( "confidence".toList) =
        some (Json.num (7 / 10)) ∧
      objGet (parse_disease_response raw) ( "urgency_level".toList) =
        some (Json.str ( "medium".toList)) ∧
      objGet (parse_disease_response raw) ( "treatment_organic".toList) =
        some (Json.obj []) ∧
      objGet (parse_disease_response raw) ( "treatment_chemical".toList) =
        some (Json.obj []) ∧
      objGet (parse_disease_response raw) ( "description".toList) =
        some (Json.str raw) ∧
      objGet (parse_disease_response raw) ( "parse_error".toList) =
        some (Json.bool true) ∧
      analyze_leaf raw =
        objSet (diseaseFallback raw) ( "raw_analysis".toList) (Json.str raw) ∧
      objGet (analyze_leaf raw) ( "raw_analysis".toList) = some (Json.str raw) := by
  intro raw h
  have heq : parse_disease_response raw = diseaseFallback raw := by
    rcases h with h | ⟨t, hspan, hp⟩
    · exact parse_disease_response_no_span h
    · exact parse_disease_response_bad_span hspan hp
  have hleaf : analyze_leaf raw =
      objSet (diseaseFallback raw) ( "raw_analysis".toList) (Json.str raw) := by
    unfold analyze_leaf
    rw [heq]
  refine ⟨heq, ?_, ?_, ?_, ?_, ?_, ?_, ?_, hleaf, ?_⟩
  · rw [heq]; rfl
  · rw [heq]; rfl
  · rw [heq]; rfl
  · rw [heq]; rfl
  · rw [heq]; rfl
  · rw [heq]; rfl
  · rw [heq]; rfl
  · rw [hleaf]; rfl

/-- Claim C10 witness: on the brace-free raw text
`the model returned prose only`, the normalizer returns the fallback
record and `analyze_leaf` adds the `raw_analysis` field to it. -/
theorem agriguard_c10_witness :
    jsonSpan exPlainRaw = none ∧
    parse_disease_response exPlainRaw = diseaseFallback exPlainRaw ∧
    objGet (parse_disease_response exPlainRaw) ( "confidence".toList) =
      some (Json.num (7 / 10)) := by
  have h := agriguard_c10_disease_fallback exPlainRaw (Or.inl (by rfl))
  exact ⟨by rfl, h.1, h.2.2.1⟩

/-- Claim C4 counterexample: a text-only chat turn whose message is
`weather` hits the weather-intent branch, which returns before any
assistant append, so the fresh session's history has length 1, not the
claimed 2. -/
theorem agriguard_c4_counterexample :
    detect_intent ( "weather".toList) = Intent.weather ∧
    (histGet (chat_history_effect [] ( "s".toList) ( "weather".toList)
      ( "hi".toList) false) ( "s".toList)).length = 1 ∧
    (histGet (chat_history_effect [] ( "s".toList) ( "weather".toList)
      ( "hi".toList) false) ( "s".toList)).length ≠ 2 := by
  refine ⟨by decide, by decide, by decide⟩

/-- Claim C4 (amended): a session id not yet in the history map has
empty history; after a single text-only turn whose message matches the
general intent, the session's history length is exactly 2 (user then
assistant), while a turn hitting the weather or IPM intent appends only
the user message (length 1); and `clear_history` on a present session
id resets its history to the empty list while the id stays present. -/
theorem agriguard_c4_session_lifecycle :
    (∀ (m : HistMap) (sid : List Char), mapGet m sid = none → histGet m sid = []) ∧
    (∀ (m : HistMap) (sid msg reply : List Char),
      mapGet m sid = none → detect_intent msg = Intent.general →
      histGet (chat_history_effect m sid msg reply false) sid =
        [⟨Role.user, msg⟩, ⟨Role.assistant, reply⟩] ∧
      (histGet (chat_history_effect m sid msg reply false) sid).length = 2) ∧
    (∀ (m : HistMap) (sid msg reply : List Char),
      mapGet m sid = none →
      (detect_intent msg = Intent.weather ∨ detect_intent msg = Intent.ipm) →
      (histGet (chat_history_effect m sid msg reply false) sid).length = 1) ∧
    (∀ (m : HistMap) (sid : List Char),
      (mapGet m sid).isSome → mapGet (clear_history m sid) sid = some []) := by
  refine ⟨?_, ?_, ?_, ?_⟩
  · intro m sid h
    unfold histGet
    rw [h]
    rfl
  · intro m sid msg reply h hint
    have h1 : (mapGet m sid).isSome = false := by rw [h]; rfl
    constructor
    · simp [chat_history_effect, h1, hint, histGet, mapGet_mapSet_self]
    · simp [chat_history_effect, h1, hint, histGet, mapGet_mapSet_self]
  · intro m sid msg reply h hint
    have h1 : (mapGet m sid).isSome = false := by rw [h]; rfl
    rcases hint with hint | hint
    · simp [chat_history_effect, h1, hint, histGet, mapGet_mapSet_self]
    · simp [chat_history_effect, h1, hint, histGet, mapGet_mapSet_self]
  · intro m sid h
    unfold clear_history
    rw [if_pos h]
    exact mapGet_mapSet_self m sid []

/-- Claim C4 witness: concrete lifecycle on the fresh session `s` with
the general-intent message `hello` and on clearing a one-message
session. -/
theorem agriguard_c4_witness :
    (histGet (chat_history_effect [] ( "s".toList) ( "hello".toList)
      ( "ok".toList) false) ( "s".toList)).length = 2 ∧
    mapGet (clear_history [( "s".toList, [⟨Role.user, "hello".toList⟩])]
      ( "s".toList)) ( "s".toList) = some [] := by
  constructor
  · exact (agriguard_c4_session_lifecycle.2.1 [] ( "s".toList) ( "hello".toList)
      ( "ok".toList) (by rfl) (by decide)).2
  · exact agriguard_c4_session_lifecycle.2.2.2
      [( "s".toList, [⟨Role.user, "hello".toList⟩])] ( "s".toList) (by decide)

/-- Claim C5: with the fast-cloud (Groq) credential configured,
`_get_available_provider(need_vision=false)` selects Groq regardless of
Ollama reachability; with no cloud credential and the local probe
failing, selection still returns a provider (the HuggingFace last
resort) and, being a total function of the state, never raises; and the
text-path selection follows exactly the priority order
Groq → Gemini → reachable Ollama → HuggingFace. -/
theorem agriguard_c5_provider_selection :
    (∀ st : SmartState, st.groq_api_key ≠ [] →
      get_available_provider st false = ProviderTag.groq) ∧
    (∀ st : SmartState, st.groq_api_key = [] → st.google_api_key = [] →
      st.ollama_reachable = false →
      get_available_provider st false = ProviderTag.huggingface) ∧
    (∀ st : SmartState,
      (get_available_provider st false = ProviderTag.groq ↔ st.groq_api_key ≠ []) ∧
      (get_available_provider st false = ProviderTag.gemini ↔
        st.groq_api_key = [] ∧ st.google_api_key ≠ []) ∧
      (get_available_provider st false = ProviderTag.ollama ↔
        st.groq_api_key = [] ∧ st.google_api_key = [] ∧ st.ollama_reachable = true) ∧
      (get_available_provider st false = ProviderTag.huggingface ↔
        st.groq_api_key = [] ∧ st.google_api_key = [] ∧ st.ollama_reachable = false)) := by
  refine ⟨?_, ?_, ?_⟩
  · intro st h
    simp [get_available_provider, h]
  · intro st h1 h2 h3
    simp [get_available_provider, h1, h2, h3]
  · intro st
    unfold get_available_provider
    split_ifs with h1 h2 h3 <;> simp_all

/-- Claim C5 witness: with a configured Groq key and an unreachable
local backend the fast cloud is chosen; with nothing configured the
last resort is chosen. -/
theorem agriguard_c5_witness :
    get_available_provider ⟨ "k".toList, [], false⟩ false = ProviderTag.groq ∧
    get_available_provider ⟨[], [], false⟩ false = ProviderTag.huggingface := by
  constructor
  · exact agriguard_c5_provider_selection.1 ⟨ "k".toList, [], false⟩ (by decide)
  · exact agriguard_c5_provider_selection.2.1 ⟨[], [], false⟩ rfl rfl rfl

/-- Claim C9: a chat turn carrying an image performs no history
mutation — every session's history (the supplied one included) reads
the same after the turn as before; history grows only on text-only
turns. -/
theorem agriguard_c9_image_turn_frame :
    ∀ (m : HistMap) (sid msg reply sid' : List Char),
      histGet (chat_history_effect m sid msg reply true) sid' = histGet m sid' := by
  intro m sid msg reply sid'
  unfold chat_history_effect
  by_cases h : (mapGet m sid).isSome
  · simp [h]
  · have h1 : mapGet m sid = none := Option.not_isSome_iff_eq_none.mp h
    simp only [h1, Option.isSome_none, Bool.false_eq_true, if_false, if_true]
    by_cases h2 : sid' = sid
    · subst h2
      unfold histGet
      rw [mapGet_mapSet_self, h1]
      rfl
    · unfold histGet
      rw [mapGet_mapSet_ne m sid sid' [] h2]

/-- Claim C6 counterexample: a 200 response whose `response` field
holds the JSON number 5 makes `OllamaProvider.analyze_image` return
`data.get("response", …)` — the number 5, not a text string — so "every
outcome returns a text string" fails on this malformed success body. -/
theorem agriguard_c6_counterexample :
    ollama_analyze_image exNumBodyOutcome = Json.num 5 ∧
    isStr (ollama_analyze_image exNumBodyOutcome) = false := by
  exact ⟨rfl, rfl⟩

/-- Claim C6 (amended): the Ollama and Groq operations are total
functions of the call outcome — no exception ever propagates — and
return an error-describing string on every transport error, caught
exception, non-success status, or undecodable body; on a well-formed
success envelope they return the extracted field value verbatim, which
is a string exactly when the backend put a string there. -/
theorem agriguard_c6_error_handling :
    (∀ m : List Char,
      isStr (ollama_analyze_image (HttpOutcome.clientErr m)) = true ∧
      isStr (ollama_analyze_image (HttpOutcome.otherErr m)) = true ∧
      isStr (ollama_generate_text (HttpOutcome.clientErr m)) = true ∧
      isStr (ollama_generate_text (HttpOutcome.otherErr m)) = true ∧
      isStr (ollama_chat (HttpOutcome.clientErr m)) = true ∧
      isStr (ollama_chat (HttpOutcome.otherErr m)) = true ∧
      isStr (groq_chat (HttpOutcome.clientErr m)) = true ∧
      isStr (groq_chat (HttpOutcome.otherErr m)) = true ∧
      isStr (groq_generate_text (HttpOutcome.clientErr m)) = true ∧
      isStr (groq_generate_text (HttpOutcome.otherErr m)) = true ∧
      isStr (groq_analyze_image (HttpOutcome.clientErr m)) = true ∧
      isStr (groq_analyze_image (HttpOutcome.otherErr m)) = true) ∧
    (∀ (st : Nat) (raw : List Char) (b : Option Json), st ≠ 200 →
      isStr (ollama_analyze_image (HttpOutcome.resp st raw b)) = true ∧
      isStr (ollama_generate_text (HttpOutcome.resp st raw b)) = true ∧
      isStr (ollama_chat (HttpOutcome.resp st raw b)) = true ∧
      isStr (groq_chat (HttpOutcome.resp st raw b)) = true ∧
      isStr (groq_generate_text (HttpOutcome.resp st raw b)) = true ∧
      isStr (groq_analyze_image (HttpOutcome.resp st raw b)) = true) ∧
    (∀ raw : List Char,
      isStr (ollama_analyze_image (HttpOutcome.resp 200 raw none)) = true ∧
      isStr (ollama_generate_text (HttpOutcome.resp 200 raw none)) = true ∧
      isStr (ollama_chat (HttpOutcome.resp 200 raw none)) = true ∧
      isStr (groq_chat (HttpOutcome.resp 200 raw none)) = true ∧
      isStr (groq_generate_text (HttpOutcome.resp 200 raw none)) = true ∧
      isStr (groq_analyze_image (HttpOutcome.resp 200 raw none)) = true) ∧
    (∀ (raw : List Char) (kvs : List (List Char × Json)) (v : Json),
      kvsGet kvs ( "response".toList) = some v →
      ollama_analyze_image (HttpOutcome.resp 200 raw (some (Json.obj kvs))) = v) ∧
    (∀ (raw : List Char) (b : Json) (v : Json),
      groqExtract b = some v →
      groq_chat (HttpOutcome.resp 200 raw (some b)) = v) := by
  refine ⟨?_, ?_, ?_, ?_, ?_⟩
  · intro m
    exact ⟨rfl, rfl, rfl, rfl, rfl, rfl, rfl, rfl, rfl, rfl, rfl, rfl⟩
  · intro st raw b h
    refine ⟨?_, ?_, ?_, ?_, ?_, ?_⟩ <;>
      simp [ollama_analyze_image, ollama_generate_text, ollama_chat, groq_chat,
        groq_generate_text, groq_analyze_image, isStr, h]
  · intro raw
    exact ⟨rfl, rfl, rfl, rfl, rfl, rfl⟩
  · intro raw kvs v h
    have h' : kvsGet kvs ['r', 'e', 's', 'p', 'o', 'n', 's', 'e'] = some v := h
    simp [ollama_analyze_image, h']
  · intro raw b v h
    simp [groq_chat, h]

/-- Claim C6 witness: a 500 status yields an error string, and a
well-formed success envelope yields the backend's string verbatim. -/
theorem agriguard_c6_witness :
    isStr (ollama_analyze_image (HttpOutcome.resp 500 ( "oops".toList) none)) = true ∧
    ollama_analyze_image (HttpOutcome.resp 200 []
      (some (Json.obj [( "response".toList, Json.str ( "hi".toList))]))) =
      Json.str ( "hi".toList) := by
  constructor
  · exact (agriguard_c6_error_handling.2.1 500 ( "oops".toList) none (by decide)).1
  · exact agriguard_c6_error_handling.2.2.2.1 []
      [( "response".toList, Json.str ( "hi".toList))] (Json.str ( "hi".toList)) (by rfl)

/-- Claim C7: `get_optimal_spray_windows` returns exactly the
subsequence of days with windSpeed<10 and precipitation<1, in forecast
order (a filter followed by a per-day map, no sorting), each tagged
excellent iff 50<humidity<80 and good otherwise; hence no returned day
has precipitation≥1 or windSpeed≥10 and the output is no longer than
the input. -/
theorem agriguard_c7_spray_windows :
    (∀ f : List ForecastDay,
      get_optimal_spray_windows f =
        (f.filter (fun d => decide (d.wind_speed < 10 ∧ d.precipitation < 1))).map
          mkSprayWindow ∧
      (get_optimal_spray_windows f).length ≤ f.length) ∧
    (∀ (f : List ForecastDay) (w : SprayWindow), w ∈ get_optimal_spray_windows f →
      w.precipitation < 1 ∧ w.wind_speed < 10) ∧
    (∀ d : ForecastDay, (mkSprayWindow d).quality = WindowQuality.excellent ↔
      (d.humidity > 50 ∧ d.humidity < 80)) := by
  refine ⟨?_, ?_, ?_⟩
  · intro f
    refine ⟨spray_windows_eq_filter_map f, ?_⟩
    rw [spray_windows_eq_filter_map f, List.length_map]
    exact List.length_filter_le _ f
  · intro f w hw
    rw [spray_windows_eq_filter_map f] at hw
    obtain ⟨d, hd, rfl⟩ := List.mem_map.mp hw
    have hcond := of_decide_eq_true (List.mem_filter.mp hd).2
    exact ⟨hcond.2, hcond.1⟩
  · intro d
    unfold mkSprayWindow
    split_ifs with h <;> simp_all

/-- Claim C7 witness: the concrete day with wind 5, precipitation 0 and
humidity 60 is kept and satisfies the bound conjunction. -/
theorem agriguard_c7_witness :
    mkSprayWindow exSprayDay ∈ get_optimal_spray_windows [exSprayDay] ∧
    (mkSprayWindow exSprayDay).precipitation < 1 ∧
    (mkSprayWindow exSprayDay).wind_speed < 10 := by
  refine ⟨by decide, ?_⟩
  exact agriguard_c7_spray_windows.2.1 [exSprayDay] (mkSprayWindow exSprayDay) (by decide)

/-- Claim C8: for every forecast day, the outbreak-risk score (with
temp the midpoint of tempMax and tempMin) is the capped sum
`min(humidity term + temperature term + rain term, 100)` with
+30/+15 humidity bands, +20 for temp in [15,25], +25/+10 rain bands;
the risk level thresholds sit at <30 and <60 on the score; the
diseases-at-risk list has at most 4 entries; and the scenario day
(humidity 85, mid-temperature 20, precipitation 8) scores 75 and is
labelled high. -/
theorem agriguard_c8_outbreak_risk :
    (∀ (day : ForecastDay) (crop : List Char),
      (predict_outbreak_day day crop).risk_score =
        min ((if day.humidity > 80 then (30 : ℤ) else if day.humidity > 70 then 15 else 0) +
          (if 15 ≤ (day.temp_max + day.temp_min) / 2 ∧
              (day.temp_max + day.temp_min) / 2 ≤ 25 then 20 else 0) +
          (if day.precipitation > 5 then 25
            else if day.precipitation > 0 then 10 else 0)) 100 ∧
      ((predict_outbreak_day day crop).risk_level = Level.low ↔
        (predict_outbreak_day day crop).risk_score < 30) ∧
      ((predict_outbreak_day day crop).risk_level = Level.medium ↔
        (¬((predict_outbreak_day day crop).risk_score < 30) ∧
          (predict_outbreak_day day crop).risk_score < 60)) ∧
      ((predict_outbreak_day day crop).risk_level = Level.high ↔
        ¬((predict_outbreak_day day crop).risk_score < 60)) ∧
      (predict_outbreak_day day crop).diseases_at_risk.length ≤ 4) ∧
    (predict_outbreak_day exOutbreakDay ( "tomato".toList)).risk_score = 75 ∧
    (predict_outbreak_day exOutbreakDay ( "tomato".toList)).risk_level = Level.high := by
  constructor
  · intro day crop
    have hscore : (predict_outbreak_day day crop).risk_score =
        (if ((if day.humidity > 80 then (30 : ℤ) else if day.humidity > 70 then 15 else 0) +
          (if 15 ≤ (day.temp_max + day.temp_min) / 2 ∧
              (day.temp_max + day.temp_min) / 2 ≤ 25 then 20 else 0) +
          (if day.precipitation > 5 then 25
            else if day.precipitation > 0 then 10 else 0)) ≤ 100
          then ((if day.humidity > 80 then (30 : ℤ) else if day.humidity > 70 then 15 else 0) +
          (if 15 ≤ (day.temp_max + day.temp_min) / 2 ∧
              (day.temp_max + day.temp_min) / 2 ≤ 25 then 20 else 0) +
          (if day.precipitation > 5 then 25
            else if day.precipitation > 0 then 10 else 0))
          else 100) := rfl
    have hlevel : (predict_outbreak_day day crop).risk_level =
        (if ((if day.humidity > 80 then (30 : ℤ) else if day.humidity > 70 then 15 else 0) +
          (if 15 ≤ (day.temp_max + day.temp_min) / 2 ∧
              (day.temp_max + day.temp_min) / 2 ≤ 25 then 20 else 0) +
          (if day.precipitation > 5 then 25
            else if day.precipitation > 0 then 10 else 0)) < 30 then Level.low
         else if ((if day.humidity > 80 then (30 : ℤ) else if day.humidity > 70 then 15 else 0) +
          (if 15 ≤ (day.temp_max + day.temp_min) / 2 ∧
              (day.temp_max + day.temp_min) / 2 ≤ 25 then 20 else 0) +
          (if day.precipitation > 5 then 25
            else if day.precipitation > 0 then 10 else 0)) < 60 then Level.medium
         else Level.high) := rfl
    have hbound : ((if day.humidity > 80 then (30 : ℤ) else if day.humidity > 70 then 15 else 0) +
          (if 15 ≤ (day.temp_max + day.temp_min) / 2 ∧
              (day.temp_max + day.temp_min) / 2 ≤ 25 then 20 else 0) +
          (if day.precipitation > 5 then 25
            else if day.precipitation > 0 then 10 else 0)) ≤ 100 := by
      split_ifs <;> decide
    have hs2 : (predict_outbreak_day day crop).risk_score =
        ((if day.humidity > 80 then (30 : ℤ) else if day.humidity > 70 then 15 else 0) +
          (if 15 ≤ (day.temp_max + day.temp_min) / 2 ∧
              (day.temp_max + day.temp_min) / 2 ≤ 25 then 20 else 0) +
          (if day.precipitation > 5 then 25
            else if day.precipitation > 0 then 10 else 0)) := by
      rw [hscore, if_pos hbound]
    have hd : (predict_outbreak_day day crop).diseases_at_risk =
        get_diseases_at_risk ((day.temp_max + day.temp_min) / 2) day.humidity
          day.precipitation crop := rfl
    refine ⟨?_, ?_, ?_, ?_, ?_⟩
    · rw [hscore, if_pos hbound, min_eq_left hbound]
    · rw [hlevel, hs2]
      clear hscore hlevel hbound hs2 hd
      generalize ((if day.humidity > 80 then (30 : ℤ) else if day.humidity > 70 then 15 else 0) +
          (if 15 ≤ (day.temp_max + day.temp_min) / 2 ∧
              (day.temp_max + day.temp_min) / 2 ≤ 25 then 20 else 0) +
          (if day.precipitation > 5 then 25
            else if day.precipitation > 0 then 10 else 0)) = s
      split_ifs with g1 g2 <;> simp_all
    · rw [hlevel, hs2]
      clear hscore hlevel hbound hs2 hd
      generalize ((if day.humidity > 80 then (30 : ℤ) else if day.humidity > 70 then 15 else 0) +
          (if 15 ≤ (day.temp_max + day.temp_min) / 2 ∧
              (day.temp_max + day.temp_min) / 2 ≤ 25 then 20 else 0) +
          (if day.precipitation > 5 then 25
            else if day.precipitation > 0 then 10 else 0)) = s
      split_ifs with g1 g2 <;> simp_all
    · rw [hlevel, hs2]
      clear hscore hlevel hbound hs2 hd
      generalize ((if day.humidity > 80 then (30 : ℤ) else if day.humidity > 70 then 15 else 0) +
          (if 15 ≤ (day.temp_max + day.temp_min) / 2 ∧
              (day.temp_max + day.temp_min) / 2 ≤ 25 then 20 else 0) +
          (if day.precipitation > 5 then 25
            else if day.precipitation > 0 then 10 else 0)) = s
      split_ifs with g1 g2 <;> simp_all
      omega
    · rw [hd]
      have hgen : ∀ l : List (List Char), (l.take 4).length ≤ 4 := fun l => by
        rw [List.length_take]
        exact min_le_left _ _
      exact hgen _
  · constructor
    · norm_num [predict_outbreak_day, exOutbreakDay]
    · norm_num [predict_outbreak_day, exOutbreakDay]

/-- Claim C1 witness: the rule-table characterisation applied at the
scenario snapshot, with both side conditions discharged concretely. -/
theorem agriguard_c1_witness :
    (analyze_disease_risk exSnapshot).fungal_disease_risk = Level.high ∧
    (analyze_disease_risk exSnapshot).pest_activity_risk = Level.low := by
  constructor
  · exact ((agriguard_c1_assess_risk.1 exSnapshot).1).mpr (by decide)
  · exact ((agriguard_c1_assess_risk.1 exSnapshot).2.2.2.2.2.2.2.2.1).mpr (by decide)

/-- Claim C8 witness: the level characterisation applied at the
scenario day, with the score bound discharged via the proved score. -/
theorem agriguard_c8_witness :
    (predict_outbreak_day exOutbreakDay ( "tomato".toList)).risk_level = Level.high := by
  refine ((agriguard_c8_outbreak_risk.1 exOutbreakDay
    ( "tomato".toList)).2.2.2.1).mpr ?_
  rw [agriguard_c8_outbreak_risk.2.1]
  decide
